import Mathlib

/-!
Shallow embedding of src/A4_Functions_Docstrings/raster_analysis.py.

The script defines four functions over rasterio/NumPy:
  load_data(subdir, filename)            - read bands 3 (red) and 4 (NIR) as float32 arrays
  plt_raster(band_array)                 - display the array (matplotlib), returns ()
  ndvi(subdir, filename)                 - np.seterr(divide=ignore, invalid=ignore); (nir-red)/(nir+red)
  ndvi_change(subdir, fn_before, fn_after) - ndvi(after) - ndvi(before)

Modelling choices:
  - Floating-point samples are modelled as exact rationals extended with the IEEE-754
    special values +inf, -inf and NaN (no rounding or overflow is modelled; band data
    read from a raster is finite, so the special values arise only from division).
  - NumPy arrays are modelled as lists of rows (List (List FVal)); elementwise binary
    operations are defined for operands of equal shape and signal a shape-mismatch
    error otherwise (full NumPy broadcasting of unequal shapes is not modelled, as the
    script only ever combines equal-shaped arrays).
  - The process-wide NumPy floating-point error policy set by np.seterr is modelled as
    an explicit state value threaded through the functions; np.seterr returns the old
    settings (which the script discards).  Only the divide and invalid entries are
    modelled; the script never touches over/under.
  - rasterio and the filesystem are modelled as an environment mapping file paths to
    rasters; a raster holds a band count and per-band grids of raw (finite) samples.
-/

namespace RasterAnalysis

/-- An IEEE-754-style floating-point value: a finite value (modelled as an exact
rational), a signed infinity, or NaN. -/
inductive FVal where
  | fin (q : ℚ)
  | posInf
  | negInf
  | nan
deriving DecidableEq, Repr

/-- One entry of the NumPy floating-point error policy, as accepted by np.seterr:
warn (the NumPy default), ignore, or raise.  (print and call are not used by the
script and are not modelled.) -/
inductive ErrMode where
  | warn
  | ignore
  | raiseErr
deriving DecidableEq, Repr

/-- The process-wide NumPy floating-point error policy, restricted to the two
entries the script sets: divide (finite/0) and invalid (0/0, inf-inf, inf/inf). -/
structure NumErrState where
  divide : ErrMode
  invalid : ErrMode
deriving DecidableEq, Repr

/-- The NumPy default error policy: warn for both entries (warn prints a warning
but still produces inf/NaN values, like ignore). -/
def defaultNumErr : NumErrState := ⟨ErrMode.warn, ErrMode.warn⟩

/-- The policy left behind by np.seterr(divide=ignore, invalid=ignore). -/
def ignoreState : NumErrState := ⟨ErrMode.ignore, ErrMode.ignore⟩

/-- Errors a call in the script can surface: rasterio file-access and format errors,
a band-index error from raster.read, NumPy FloatingPointError (raised only under a
raise policy), and the NumPy error for elementwise operands of unequal shape. -/
inductive PyError where
  | fileAccess
  | formatErr
  | bandIndex
  | fpDivide
  | fpInvalid
  | shapeMismatch
deriving DecidableEq, Repr

deriving instance DecidableEq for Except

/-- Raise FloatingPointError if the invalid entry of the policy says raise,
otherwise produce the given (NaN) value.  warn and ignore both produce the value. -/
def checkInvalid (st : NumErrState) (v : FVal) : Except PyError FVal :=
  if st.invalid = ErrMode.raiseErr then Except.error PyError.fpInvalid else Except.ok v

/-- IEEE-754 negation. -/
def fneg : FVal → FVal
  | FVal.fin q => FVal.fin (-q)
  | FVal.posInf => FVal.negInf
  | FVal.negInf => FVal.posInf
  | FVal.nan => FVal.nan

/-- IEEE-754 addition under a NumPy error policy: NaN propagates quietly,
inf + (-inf) is an invalid operation (NaN, or FloatingPointError under raise),
finite values add exactly. -/
def fadd (st : NumErrState) : FVal → FVal → Except PyError FVal
  | FVal.nan, _ => Except.ok FVal.nan
  | _, FVal.nan => Except.ok FVal.nan
  | FVal.fin x, FVal.fin y => Except.ok (FVal.fin (x + y))
  | FVal.posInf, FVal.negInf => checkInvalid st FVal.nan
  | FVal.negInf, FVal.posInf => checkInvalid st FVal.nan
  | FVal.posInf, _ => Except.ok FVal.posInf
  | _, FVal.posInf => Except.ok FVal.posInf
  | FVal.negInf, _ => Except.ok FVal.negInf
  | _, FVal.negInf => Except.ok FVal.negInf

/-- IEEE-754 subtraction, a - b = a + (-b). -/
def fsub (st : NumErrState) (a b : FVal) : Except PyError FVal :=
  fadd st a (fneg b)

/-- IEEE-754 division under a NumPy error policy: finite/0 with nonzero numerator
is a divide-by-zero (signed infinity by the numerator's sign, or FloatingPointError
under raise); 0/0 and inf/inf are invalid operations (NaN, or FloatingPointError
under raise); NaN propagates quietly.  (Rationals have no signed zero, so the
denominator zero is treated as +0, as NumPy integer-to-float data gives.) -/
def fdiv (st : NumErrState) : FVal → FVal → Except PyError FVal
  | FVal.nan, _ => Except.ok FVal.nan
  | _, FVal.nan => Except.ok FVal.nan
  | FVal.fin x, FVal.fin y =>
      if y = 0 then
        if x = 0 then checkInvalid st FVal.nan
        else if st.divide = ErrMode.raiseErr then Except.error PyError.fpDivide
        else Except.ok (if 0 < x then FVal.posInf else FVal.negInf)
      else Except.ok (FVal.fin (x / y))
  | FVal.fin _, FVal.posInf => Except.ok (FVal.fin 0)
  | FVal.fin _, FVal.negInf => Except.ok (FVal.fin 0)
  | FVal.posInf, FVal.fin y => Except.ok (if 0 ≤ y then FVal.posInf else FVal.negInf)
  | FVal.negInf, FVal.fin y => Except.ok (if 0 ≤ y then FVal.negInf else FVal.posInf)
  | _, _ => checkInvalid st FVal.nan

/-- IEEE-754 strict less-than as a boolean: NaN compares false with everything,
+inf is not below itself. -/
def fltb : FVal → FVal → Bool
  | FVal.fin x, FVal.fin y => decide (x < y)
  | FVal.fin _, FVal.posInf => true
  | FVal.negInf, FVal.fin _ => true
  | FVal.negInf, FVal.posInf => true
  | _, _ => false

/-- Strict positivity of a floating-point value (NaN is not positive). -/
def fposb : FVal → Bool
  | FVal.fin x => decide (0 < x)
  | FVal.posInf => true
  | _ => false

/-- A NumPy 2D array: a list of rows of floating-point samples. -/
abbrev Grid : Type := List (List FVal)

/-- A raw 2D band as stored in a raster: rows of finite numeric samples. -/
abbrev QGrid : Type := List (List ℚ)

/-- The shape of a grid: the length of each row, in order (for a rectangular
NumPy array, the row count and the common row length determine this list). -/
def rowLens (g : Grid) : List Nat := g.map List.length

/-- The shape of a raw band. -/
def qRowLens (q : QGrid) : List Nat := q.map List.length

/-- The cell of a grid at row i, column j (0-based), when present. -/
def getCell (g : Grid) (i j : Nat) : Option FVal :=
  (g.get? i).bind (fun row => row.get? j)

/-- The cell of a raw band at row i, column j (0-based), when present. -/
def getQ (q : QGrid) (i j : Nat) : Option ℚ :=
  (q.get? i).bind (fun row => row.get? j)

/-- Apply a fallible elementwise operation along two rows of equal length
(NumPy stops at the first raised floating-point error). -/
def zipWithE (f : FVal → FVal → Except PyError FVal) :
    List FVal → List FVal → Except PyError (List FVal)
  | x :: xs, y :: ys =>
    match f x y with
    | Except.error e => Except.error e
    | Except.ok z =>
      match zipWithE f xs ys with
      | Except.error e => Except.error e
      | Except.ok zs => Except.ok (z :: zs)
  | _, _ => Except.ok []

/-- Apply a fallible elementwise operation across the rows of two grids. -/
def ewiseRows (f : FVal → FVal → Except PyError FVal) :
    Grid → Grid → Except PyError Grid
  | r :: rs, s :: ss =>
    match zipWithE f r s with
    | Except.error e => Except.error e
    | Except.ok t =>
      match ewiseRows f rs ss with
      | Except.error e => Except.error e
      | Except.ok ts => Except.ok (t :: ts)
  | _, _ => Except.ok []

/-- A NumPy elementwise binary operation on two arrays: defined cell by cell when
the shapes agree, a shape-mismatch error otherwise (the script only ever combines
equal-shaped arrays; NumPy broadcasting of unequal shapes is not modelled). -/
def ewise (f : FVal → FVal → Except PyError FVal) (g h : Grid) : Except PyError Grid :=
  if rowLens g = rowLens h then ewiseRows f g h else Except.error PyError.shapeMismatch

/-- A multi-band raster as rasterio presents an opened file: a band count and,
for each 1-based band index, a 2D grid of raw (finite) samples.  All bands of a
real raster share one shape; theorems take that as a hypothesis where needed. -/
structure Raster where
  numBands : Nat
  bandData : Nat → QGrid

/-- Read one 1-based band of an opened raster, as raster.read(i): a Band-Index
error when the index is out of range, the raw samples otherwise. -/
def Raster.read (r : Raster) (i : Nat) : Except PyError QGrid :=
  if 1 ≤ i ∧ i ≤ r.numBands then Except.ok (r.bandData i) else Except.error PyError.bandIndex

/-- The filesystem as rasterio.open sees it: each path either opens as a raster
or fails with a file-access or format error. -/
def FS : Type := String → Except PyError Raster

/-- os.path.join(subdir, filename) for the two-component POSIX case the script uses. -/
def os_path_join (subdir filename : String) : String := subdir ++ "/" ++ filename

/-- numpy .astype(f4): convert raw band samples to a float array. -/
def astype_f4 (q : QGrid) : Grid := q.map (fun row => row.map FVal.fin)

/-- load_data(subdir, filename): join the path, open the raster, read band 3 as
red and band 4 as NIR, both converted to float arrays, and return the pair. -/
def load_data (fs : FS) (subdir filename : String) : Except PyError (Grid × Grid) :=
  match fs (os_path_join subdir filename) with
  | Except.error e => Except.error e
  | Except.ok raster =>
    match raster.read 3 with
    | Except.error e => Except.error e
    | Except.ok red3 =>
      match raster.read 4 with
      | Except.error e => Except.error e
      | Except.ok nir4 => Except.ok (astype_f4 red3, astype_f4 nir4)

/-- np.seterr(divide=ignore, invalid=ignore): replace the process-wide policy for
divide and invalid with ignore, returning (new policy, old policy); the old policy
is what np.seterr hands back to its caller, which the script discards. -/
def np_seterr_ignore (st : NumErrState) : NumErrState × NumErrState :=
  (⟨ErrMode.ignore, ErrMode.ignore⟩, st)

/-- ndvi(subdir, filename): set the numeric error policy to ignore, load the red
and NIR bands, and compute (nir - red) / (nir + red) elementwise under the new
policy.  The mutated policy is the state the call leaves behind. -/
def ndvi (fs : FS) (subdir filename : String) (st : NumErrState) :
    Except PyError (Grid × NumErrState) :=
  match np_seterr_ignore st with
  | (st1, _oldSettings) =>
    match load_data fs subdir filename with
    | Except.error e => Except.error e
    | Except.ok (red, nir) =>
      match ewise (fsub st1) nir red with
      | Except.error e => Except.error e
      | Except.ok num =>
        match ewise (fadd st1) nir red with
        | Except.error e => Except.error e
        | Except.ok den =>
          match ewise (fdiv st1) num den with
          | Except.error e => Except.error e
          | Except.ok index => Except.ok (index, st1)

/-- ndvi_change(subdir, fn_before, fn_after): ndvi(subdir, fn_after) minus
ndvi(subdir, fn_before), elementwise; Python evaluates the left operand (the
after raster) first. -/
def ndvi_change (fs : FS) (subdir fn_before fn_after : String) (st : NumErrState) :
    Except PyError (Grid × NumErrState) :=
  match ndvi fs subdir fn_after st with
  | Except.error e => Except.error e
  | Except.ok (gAfter, st1) =>
    match ndvi fs subdir fn_before st1 with
    | Except.error e => Except.error e
    | Except.ok (gBefore, st2) =>
      match ewise (fsub st2) gAfter gBefore with
      | Except.error e => Except.error e
      | Except.ok delta => Except.ok (delta, st2)

/-- A matplotlib call the script makes while plotting. -/
inductive PlotEffect where
  | imshow (g : Grid) (cmap : String)
  | colorbar
deriving DecidableEq, Repr

/-- A Python value, restricted to the two the script's functions can return
implicitly or explicitly at top level of plt_raster: None and the empty tuple. -/
inductive PyVal where
  | none
  | emptyTuple
deriving DecidableEq, Repr

/-- plt_raster(band_array), as written: plt.imshow(band_array, cmap=terrain_r),
plt.colorbar(), then the statement return() - which returns the empty tuple.
The result pairs the sequence of display side effects with the returned value. -/
def plt_raster (band_array : Grid) : List PlotEffect × PyVal :=
  ([PlotEffect.imshow band_array "terrain_r", PlotEffect.colorbar], PyVal.emptyTuple)

/-- Line 80 of raster_analysis.py, the first statement of the body of
plt_raster, with its indentation stripped. -/
def pltRasterMagicLine : String := "%matplotlib inline"

/-- Whether a character can be the first character of a Python statement (after
indentation).  Per the Python grammar a statement starts with a keyword or
identifier (letter or underscore), a literal (digit, quote, or a dot starting a
float), an opening bracket, a prefix operator (+, -, ~), a star (argument
unpacking or starred assignment target), an at-sign (decorator or, in recent
grammars, nothing else), a semicolon-free simple statement, an ellipsis dot, or
a backslash line continuation.  The percent sign is not among them: % occurs in
Python only as the infix modulo/formatting operator and in the augmented
assignment operator, never at the start of a statement, so a line whose first
token starts with % is a syntax error for the plain Python parser. -/
def pyStmtStartChar (c : Char) : Bool :=
  c.isAlpha || c = '_' || c.isDigit || c = Char.ofNat 34 || c = Char.ofNat 39 ||
  c = '(' || c = '[' || c = Char.ofNat 123 || c = '+' || c = '-' || c = '~' ||
  c = '*' || c = '@' || c = '.' || c = Char.ofNat 92

/-- Whether a stripped source line could begin a Python statement, judged by its
first character (an empty line trivially can, as a blank line). -/
def pyLineStartOK (line : String) : Bool :=
  match line.data with
  | [] => true
  | c :: _ => pyStmtStartChar c

/-- The value of one NDVI cell with red sample r and NIR sample n, as the
composite (n - r) / (n + r) evaluates under the ignore policy: a finite ratio
when the denominator is nonzero, NaN for 0/0, a signed infinity otherwise. -/
def ndviCell (r n : ℚ) : FVal :=
  if n + r = 0 then
    if n - r = 0 then FVal.nan
    else if 0 < n - r then FVal.posInf else FVal.negInf
  else FVal.fin ((n - r) / (n + r))

/-- Every cell of the grid is strictly positive. -/
def allPos (g : Grid) : Bool := g.all (fun row => row.all fposb)

/-- Cell by cell, the first grid is strictly below the second (NaN cells make
this false, as IEEE comparisons with NaN are false). -/
def allLt (g h : Grid) : Bool :=
  (List.zip g h).all (fun p => (List.zip p.1 p.2).all (fun q => fltb q.1 q.2))

/-- A four-band test raster holding the given red (band 3) and NIR (band 4) data. -/
def testRaster (red nir : QGrid) : Raster :=
  { numBands := 4, bandData := fun i => if i = 3 then red else if i = 4 then nir else [] }

/-- A filesystem with a single readable raster at the given path. -/
def oneFileFS (fp : String) (r : Raster) : FS :=
  fun p => if p = fp then Except.ok r else Except.error PyError.fileAccess

/-- A filesystem with two readable rasters. -/
def twoFileFS (fp1 : String) (r1 : Raster) (fp2 : String) (r2 : Raster) : FS :=
  fun p =>
    if p = fp1 then Except.ok r1
    else if p = fp2 then Except.ok r2
    else Except.error PyError.fileAccess

example : fdiv ignoreState (FVal.fin 2) (FVal.fin 0) = Except.ok FVal.posInf := by
  with_unfolding_all decide
example : fdiv ignoreState (FVal.fin 0) (FVal.fin 0) = Except.ok FVal.nan := by
  with_unfolding_all decide
example : fdiv ignoreState (FVal.fin 2) (FVal.fin 4) = Except.ok (FVal.fin (1/2)) := by
  with_unfolding_all rfl
example : fdiv ⟨ErrMode.raiseErr, ErrMode.warn⟩ (FVal.fin 2) (FVal.fin 0)
    = Except.error PyError.fpDivide := by with_unfolding_all decide

lemma fadd_fin (st : NumErrState) (x y : ℚ) :
    fadd st (FVal.fin x) (FVal.fin y) = Except.ok (FVal.fin (x + y)) := rfl

lemma fsub_fin (st : NumErrState) (x y : ℚ) :
    fsub st (FVal.fin x) (FVal.fin y) = Except.ok (FVal.fin (x - y)) := by
  show fadd st (FVal.fin x) (FVal.fin (-y)) = Except.ok (FVal.fin (x - y))
  rw [fadd_fin, ← sub_eq_add_neg]

lemma fdiv_ndviCell (r n : ℚ) :
    fdiv ignoreState (FVal.fin (n - r)) (FVal.fin (n + r)) = Except.ok (ndviCell r n) := by
  simp only [fdiv, checkInvalid, ignoreState, ndviCell]
  by_cases hden : n + r = 0 <;> by_cases hnum : n - r = 0 <;> simp [hden, hnum]

lemma fadd_ignore_total (a b : FVal) : ∃ c, fadd ignoreState a b = Except.ok c := by
  cases a <;> cases b <;> simp [fadd, checkInvalid, ignoreState]

lemma fsub_ignore_total (a b : FVal) : ∃ c, fsub ignoreState a b = Except.ok c := by
  unfold fsub; exact fadd_ignore_total a (fneg b)

set_option linter.unnecessarySeqFocus false in
lemma fdiv_ignore_total (a b : FVal) : ∃ c, fdiv ignoreState a b = Except.ok c := by
  cases a <;> cases b <;> simp [fdiv, checkInvalid, ignoreState] <;> split_ifs <;> simp

lemma flt_fsub_pos (st : NumErrState) {a b : FVal} (h : fltb b a = true) :
    ∃ c, fsub st a b = Except.ok c ∧ fposb c = true := by
  cases b with
  | fin y =>
    cases a with
    | fin x =>
      refine ⟨FVal.fin (x - y), fsub_fin st x y, ?_⟩
      have hyx : y < x := by simpa [fltb] using h
      simp [fposb, sub_pos, hyx]
    | posInf => exact ⟨FVal.posInf, rfl, rfl⟩
    | negInf => simp [fltb] at h
    | nan => simp [fltb] at h
  | posInf => cases a <;> simp [fltb] at h
  | negInf =>
    cases a with
    | fin x => exact ⟨FVal.posInf, rfl, rfl⟩
    | posInf => exact ⟨FVal.posInf, rfl, rfl⟩
    | negInf => simp [fltb] at h
    | nan => simp [fltb] at h
  | nan => cases a <;> simp [fltb] at h

lemma zipWithE_total (f : FVal → FVal → Except PyError FVal)
    (hf : ∀ a b, ∃ c, f a b = Except.ok c) :
    ∀ (xs ys : List FVal), ∃ zs, zipWithE f xs ys = Except.ok zs ∧
      zs.length = min xs.length ys.length := by
  intro xs
  induction xs with
  | nil => intro ys; exact ⟨[], rfl, by simp⟩
  | cons x xs ih =>
    intro ys
    cases ys with
    | nil => exact ⟨[], rfl, by simp⟩
    | cons y ys =>
      obtain ⟨c, hc⟩ := hf x y
      obtain ⟨zs, hzs, hlen⟩ := ih ys
      refine ⟨c :: zs, ?_, ?_⟩
      · simp [zipWithE, hc, hzs]
      · simp [hlen, Nat.succ_min_succ]

lemma zipWithE_ok_get {f : FVal → FVal → Except PyError FVal} :
    ∀ {xs ys zs : List FVal}, zipWithE f xs ys = Except.ok zs →
      ∀ (i : Nat) {a b : FVal}, xs.get? i = some a → ys.get? i = some b →
        ∃ c, f a b = Except.ok c ∧ zs.get? i = some c := by
  intro xs
  induction xs with
  | nil => intro ys zs _ i a b ha; simp at ha
  | cons x xs ih =>
    intro ys zs hz i a b ha hb
    cases ys with
    | nil => simp at hb
    | cons y ys =>
      simp only [zipWithE] at hz
      cases hfx : f x y with
      | error e => rw [hfx] at hz; exact absurd hz (by simp)
      | ok z =>
        rw [hfx] at hz
        cases hrest : zipWithE f xs ys with
        | error e => rw [hrest] at hz; exact absurd hz (by simp)
        | ok zs0 =>
          rw [hrest] at hz
          simp only [Except.ok.injEq] at hz
          subst hz
          cases i with
          | zero =>
            simp only [List.get?] at ha hb ⊢
            cases ha; cases hb
            exact ⟨z, hfx, rfl⟩
          | succ n =>
            simp only [List.get?] at ha hb ⊢
            exact ih hrest n ha hb

lemma ewiseRows_total (f : FVal → FVal → Except PyError FVal)
    (hf : ∀ a b, ∃ c, f a b = Except.ok c) :
    ∀ (g h : Grid), rowLens g = rowLens h →
      ∃ k, ewiseRows f g h = Except.ok k ∧ rowLens k = rowLens g := by
  intro g
  induction g with
  | nil =>
    intro h hsh
    cases h with
    | nil => exact ⟨[], rfl, rfl⟩
    | cons s ss => simp [rowLens] at hsh
  | cons r rs ih =>
    intro h hsh
    cases h with
    | nil => simp [rowLens] at hsh
    | cons s ss =>
      simp only [rowLens, List.map_cons, List.cons.injEq] at hsh
      obtain ⟨hlen, hrest⟩ := hsh
      obtain ⟨t, ht, htlen⟩ := zipWithE_total f hf r s
      obtain ⟨ts, hts, htslen⟩ := ih ss hrest
      refine ⟨t :: ts, ?_, ?_⟩
      · simp [ewiseRows, ht, hts]
      · simp only [rowLens, List.map_cons, List.cons.injEq]
        exact ⟨by rw [htlen, hlen, Nat.min_self], htslen⟩

lemma ewiseRows_ok_get {f : FVal → FVal → Except PyError FVal} :
    ∀ {g h k : Grid}, ewiseRows f g h = Except.ok k →
      ∀ (i j : Nat) {a b : FVal}, getCell g i j = some a → getCell h i j = some b →
        ∃ c, f a b = Except.ok c ∧ getCell k i j = some c := by
  intro g
  induction g with
  | nil => intro h k _ i j a b ha; simp [getCell] at ha
  | cons r rs ih =>
    intro h k hk i j a b ha hb
    cases h with
    | nil => simp [getCell] at hb
    | cons s ss =>
      simp only [ewiseRows] at hk
      cases hrow : zipWithE f r s with
      | error e => rw [hrow] at hk; exact absurd hk (by simp)
      | ok t =>
        rw [hrow] at hk
        cases hrest : ewiseRows f rs ss with
        | error e => rw [hrest] at hk; exact absurd hk (by simp)
        | ok ts =>
          rw [hrest] at hk
          simp only [Except.ok.injEq] at hk
          subst hk
          cases i with
          | zero =>
            simp only [getCell, List.get?, Option.some_bind] at ha hb ⊢
            exact zipWithE_ok_get hrow j ha hb
          | succ n =>
            simp only [getCell, List.get?] at ha hb ⊢
            exact ih hrest n j ha hb

lemma ewise_total (f : FVal → FVal → Except PyError FVal)
    (hf : ∀ a b, ∃ c, f a b = Except.ok c) {g h : Grid} (hsh : rowLens g = rowLens h) :
    ∃ k, ewise f g h = Except.ok k ∧ rowLens k = rowLens g := by
  obtain ⟨k, hk, hlen⟩ := ewiseRows_total f hf g h hsh
  exact ⟨k, by simp [ewise, hsh, hk], hlen⟩

lemma ewise_ok_get {f : FVal → FVal → Except PyError FVal} {g h k : Grid}
    (hk : ewise f g h = Except.ok k) (i j : Nat) {a b : FVal}
    (ha : getCell g i j = some a) (hb : getCell h i j = some b) :
    ∃ c, f a b = Except.ok c ∧ getCell k i j = some c := by
  simp only [ewise] at hk
  split at hk
  · exact ewiseRows_ok_get hk i j ha hb
  · exact absurd hk (by simp)

lemma zipWithE_sub_pos (st : NumErrState) :
    ∀ {xsA xsB zs : List FVal}, zipWithE (fsub st) xsA xsB = Except.ok zs →
      (List.zip xsB xsA).all (fun q => fltb q.1 q.2) = true → zs.all fposb = true := by
  intro xsA
  induction xsA with
  | nil =>
    intro xsB zs hz _
    cases xsB <;> simp only [zipWithE, Except.ok.injEq] at hz <;> subst hz <;> rfl
  | cons a as ih =>
    intro xsB zs hz hlt
    cases xsB with
    | nil =>
      simp only [zipWithE, Except.ok.injEq] at hz; subst hz; rfl
    | cons b bs =>
      simp only [List.zip_cons_cons, List.all_cons, Bool.and_eq_true] at hlt
      obtain ⟨hab, hrest⟩ := hlt
      obtain ⟨c, hc, hcpos⟩ := flt_fsub_pos st hab
      simp only [zipWithE, hc] at hz
      cases hzs : zipWithE (fsub st) as bs with
      | error e => rw [hzs] at hz; exact absurd hz (by simp)
      | ok zs0 =>
        rw [hzs] at hz
        simp only [Except.ok.injEq] at hz
        subst hz
        simp only [List.all_cons, Bool.and_eq_true]
        exact ⟨hcpos, ih hzs hrest⟩

lemma ewiseRows_sub_pos (st : NumErrState) :
    ∀ {gA gB k : Grid}, ewiseRows (fsub st) gA gB = Except.ok k →
      allLt gB gA = true → allPos k = true := by
  intro gA
  induction gA with
  | nil =>
    intro gB k hk _
    cases gB <;> simp only [ewiseRows, Except.ok.injEq] at hk <;> subst hk <;> rfl
  | cons r rs ih =>
    intro gB k hk hlt
    cases gB with
    | nil =>
      simp only [ewiseRows, Except.ok.injEq] at hk; subst hk; rfl
    | cons s ss =>
      simp only [allLt, List.zip_cons_cons, List.all_cons, Bool.and_eq_true] at hlt
      obtain ⟨hrow, hrest⟩ := hlt
      simp only [ewiseRows] at hk
      cases hrowz : zipWithE (fsub st) r s with
      | error e => rw [hrowz] at hk; exact absurd hk (by simp)
      | ok t =>
        rw [hrowz] at hk
        cases hrestz : ewiseRows (fsub st) rs ss with
        | error e => rw [hrestz] at hk; exact absurd hk (by simp)
        | ok ts =>
          rw [hrestz] at hk
          simp only [Except.ok.injEq] at hk
          subst hk
          simp only [allPos, List.all_cons, Bool.and_eq_true]
          exact ⟨zipWithE_sub_pos st hrowz hrow, ih hrestz hrest⟩

lemma rowLens_astype (q : QGrid) : rowLens (astype_f4 q) = qRowLens q := by
  simp [rowLens, astype_f4, qRowLens, List.map_map, Function.comp]

lemma getCell_astype (q : QGrid) (i j : Nat) :
    getCell (astype_f4 q) i j = (getQ q i j).map FVal.fin := by
  simp only [getCell, astype_f4, getQ, List.get?_map]
  cases q.get? i with
  | none => rfl
  | some row => simp [List.get?_map]

lemma load_data_ok (fs : FS) (subdir fn : String) (raster : Raster)
    (hopen : fs (os_path_join subdir fn) = Except.ok raster)
    (hbands : 4 ≤ raster.numBands) :
    load_data fs subdir fn =
      Except.ok (astype_f4 (raster.bandData 3), astype_f4 (raster.bandData 4)) := by
  have h3 : raster.read 3 = Except.ok (raster.bandData 3) := by
    unfold Raster.read
    rw [if_pos ⟨by norm_num, by omega⟩]
  have h4 : raster.read 4 = Except.ok (raster.bandData 4) := by
    unfold Raster.read
    rw [if_pos ⟨by norm_num, by omega⟩]
  simp [load_data, hopen, h3, h4]

lemma ndvi_state_irrel (fs : FS) (subdir fn : String) (st st' : NumErrState) :
    ndvi fs subdir fn st = ndvi fs subdir fn st' := rfl

lemma ndvi_ok_state {fs : FS} {subdir fn : String} {st : NumErrState} {g : Grid}
    {s : NumErrState} (h : ndvi fs subdir fn st = Except.ok (g, s)) : s = ignoreState := by
  simp only [ndvi, np_seterr_ignore] at h
  repeat' split at h
  all_goals simp_all [ignoreState]

/-- Master lemma for a successful ndvi run: on a readable raster with at least
four bands whose red and NIR bands share a shape, ndvi succeeds, leaves the
policy at ignore, preserves the band shape, and each cell is ndviCell r n. -/
lemma ndvi_run (fs : FS) (subdir fn : String) (st : NumErrState) (raster : Raster)
    (hopen : fs (os_path_join subdir fn) = Except.ok raster)
    (hbands : 4 ≤ raster.numBands)
    (hsh : qRowLens (raster.bandData 3) = qRowLens (raster.bandData 4)) :
    ∃ g, ndvi fs subdir fn st = Except.ok (g, ignoreState) ∧
      rowLens g = qRowLens (raster.bandData 3) ∧
      ∀ (i j : Nat) (r n : ℚ), getQ (raster.bandData 3) i j = some r →
        getQ (raster.bandData 4) i j = some n →
        getCell g i j = some (ndviCell r n) := by
  have hld := load_data_ok fs subdir fn raster hopen hbands
  have hshape : rowLens (astype_f4 (raster.bandData 4)) = rowLens (astype_f4 (raster.bandData 3)) := by
    rw [rowLens_astype, rowLens_astype, hsh]
  obtain ⟨num, hnum, hnumlen⟩ := ewise_total (fsub ignoreState) fsub_ignore_total hshape
  obtain ⟨den, hden, hdenlen⟩ := ewise_total (fadd ignoreState) fadd_ignore_total hshape
  have hnd : rowLens num = rowLens den := by rw [hnumlen, hdenlen]
  obtain ⟨g, hg, hglen⟩ := ewise_total (fdiv ignoreState) fdiv_ignore_total hnd
  refine ⟨g, ?_, ?_, ?_⟩
  · have hIg : ({ divide := ErrMode.ignore, invalid := ErrMode.ignore } : NumErrState)
        = ignoreState := rfl
    simp only [ndvi, np_seterr_ignore, hIg, hld, hnum, hden, hg]
  · rw [hglen, hnumlen, rowLens_astype, hsh]
  · intro i j r n hr hn
    have hcr : getCell (astype_f4 (raster.bandData 3)) i j = some (FVal.fin r) := by
      rw [getCell_astype, hr]; rfl
    have hcn : getCell (astype_f4 (raster.bandData 4)) i j = some (FVal.fin n) := by
      rw [getCell_astype, hn]; rfl
    obtain ⟨c1, hc1, hnumc⟩ := ewise_ok_get hnum i j hcn hcr
    rw [fsub_fin] at hc1
    injection hc1 with hc1e
    subst hc1e
    obtain ⟨c2, hc2, hdenc⟩ := ewise_ok_get hden i j hcn hcr
    rw [fadd_fin] at hc2
    injection hc2 with hc2e
    subst hc2e
    obtain ⟨c3, hc3, hgc⟩ := ewise_ok_get hg i j hnumc hdenc
    rw [fdiv_ndviCell] at hc3
    injection hc3 with hc3e
    subst hc3e
    exact hgc

example :
    ndvi (oneFileFS "d/f" (testRaster [[1, 2], [3, 4]] [[3, 4], [5, 6]])) "d" "f" defaultNumErr
      = Except.ok ([[FVal.fin (1/2), FVal.fin (1/3)], [FVal.fin (1/4), FVal.fin (1/5)]],
          ignoreState) := by
  with_unfolding_all rfl

example :
    ndvi (oneFileFS "d/f" (testRaster [[-1]] [[3]])) "d" "f" defaultNumErr
      = Except.ok ([[FVal.fin 2]], ignoreState) := by
  with_unfolding_all rfl

example :
    ndvi (oneFileFS "d/f" (testRaster [[0, -1]] [[0, 1]])) "d" "f" defaultNumErr
      = Except.ok ([[FVal.nan, FVal.posInf]], ignoreState) := by
  with_unfolding_all rfl

lemma ewise_sub_pos (st : NumErrState) {gA gB k : Grid}
    (h : ewise (fsub st) gA gB = Except.ok k) (hlt : allLt gB gA = true) :
    allPos k = true := by
  simp only [ewise] at h
  split at h
  · exact ewiseRows_sub_pos st h hlt
  · exact absurd h (by simp)

/-- Master lemma for a successful ndvi_change run: when the two underlying ndvi
calls succeed with equal-shaped grids, ndvi_change subtracts them elementwise
(after minus before) under the policy the second call left behind. -/
lemma ndvi_change_run {fs : FS} {subdir fnB fnA : String} {st : NumErrState}
    {gA gB : Grid} {sA sB : NumErrState}
    (hA : ndvi fs subdir fnA st = Except.ok (gA, sA))
    (hB : ndvi fs subdir fnB st = Except.ok (gB, sB))
    (hsh : rowLens gA = rowLens gB) :
    ∃ delta, ndvi_change fs subdir fnB fnA st = Except.ok (delta, sB) ∧
      ewise (fsub sB) gA gB = Except.ok delta ∧ rowLens delta = rowLens gA := by
  have hsB : sB = ignoreState := ndvi_ok_state hB
  subst hsB
  have hB2 : ndvi fs subdir fnB sA = Except.ok (gB, ignoreState) := by
    rw [ndvi_state_irrel fs subdir fnB sA st]; exact hB
  obtain ⟨delta, hdelta, hdlen⟩ := ewise_total (fsub ignoreState) fsub_ignore_total hsh
  refine ⟨delta, ?_, hdelta, hdlen⟩
  simp only [ndvi_change, hA, hB2, hdelta]

/-- C1 counterexample: for the raster with red = [[-1]] and NIR = [[3]] the cell
has NIR+red = 2 which is nonzero, and ndvi there is (3-(-1))/(3+(-1)) = 2, which
does not lie in [-1, 1]: the interval part of the claim fails for band grids
with a negative sample. -/
theorem C1_counterexample :
    ndvi (oneFileFS "d/f" (testRaster [[-1]] [[3]])) "d" "f" defaultNumErr
      = Except.ok ([[FVal.fin 2]], ignoreState) ∧ ¬((2 : ℚ) ≤ 1) :=
  ⟨by with_unfolding_all rfl, by norm_num⟩

/-- C1 (amended): for every raster the Band Loader can read (at least 4 bands,
equal-shaped red/NIR bands), at every cell where NIR+red is nonzero, ndvi equals
(NIR-red)/(NIR+red); and when the red and NIR samples at that cell are both
nonnegative (as physical reflectance data is), that value lies in [-1, 1]. -/
theorem C1_ndvi_cell_ratio (fs : FS) (subdir fn : String) (st : NumErrState)
    (raster : Raster)
    (hopen : fs (os_path_join subdir fn) = Except.ok raster)
    (hbands : 4 ≤ raster.numBands)
    (hsh : qRowLens (raster.bandData 3) = qRowLens (raster.bandData 4)) :
    ∃ g, ndvi fs subdir fn st = Except.ok (g, ignoreState) ∧
      ∀ (i j : Nat) (r n : ℚ), getQ (raster.bandData 3) i j = some r →
        getQ (raster.bandData 4) i j = some n → n + r ≠ 0 →
        getCell g i j = some (FVal.fin ((n - r) / (n + r))) ∧
        (0 ≤ r → 0 ≤ n → -1 ≤ (n - r) / (n + r) ∧ (n - r) / (n + r) ≤ 1) := by
  obtain ⟨g, hok, _, hcell⟩ := ndvi_run fs subdir fn st raster hopen hbands hsh
  refine ⟨g, hok, ?_⟩
  intro i j r n hr hn hnz
  refine ⟨?_, ?_⟩
  · have := hcell i j r n hr hn
    unfold ndviCell at this
    rwa [if_neg hnz] at this
  · intro hr0 hn0
    have hpos : 0 < n + r := lt_of_le_of_ne (by linarith) (Ne.symm hnz)
    constructor
    · rw [le_div_iff hpos]; linarith
    · rw [div_le_one hpos]; linarith

/-- C1 witness: the amended theorem applied to the spec scenario
red = [[1,2],[3,4]], NIR = [[3,4],[5,6]]; its cell (0,0) is 1/2, inside
[-1, 1]. -/
theorem C1_ndvi_cell_ratio_witness :
    getQ [[(1 : ℚ), 2], [3, 4]] 0 0 = some 1 ∧
    getCell [[FVal.fin (1/2), FVal.fin (1/3)], [FVal.fin (1/4), FVal.fin (1/5)]] 0 0
      = some (FVal.fin ((3 - 1) / (3 + 1))) ∧
    -1 ≤ ((3 : ℚ) - 1) / (3 + 1) ∧ ((3 : ℚ) - 1) / (3 + 1) ≤ 1 := by
  obtain ⟨g, hok, hcell⟩ := C1_ndvi_cell_ratio
    (oneFileFS "d/f" (testRaster [[1, 2], [3, 4]] [[3, 4], [5, 6]])) "d" "f" defaultNumErr
    (testRaster [[1, 2], [3, 4]] [[3, 4], [5, 6]])
    (by with_unfolding_all rfl) (by norm_num [testRaster]) (by with_unfolding_all rfl)
  have hg : g = [[FVal.fin (1/2), FVal.fin (1/3)], [FVal.fin (1/4), FVal.fin (1/5)]] := by
    have hconc :
        ndvi (oneFileFS "d/f" (testRaster [[1, 2], [3, 4]] [[3, 4], [5, 6]])) "d" "f"
          defaultNumErr
          = Except.ok (([[FVal.fin (1/2), FVal.fin (1/3)], [FVal.fin (1/4), FVal.fin (1/5)]] :
              Grid), ignoreState) := by
      with_unfolding_all rfl
    rw [hconc] at hok
    injection hok with hok1
    injection hok1 with hok2 hok3
    exact hok2.symm
  have hc := hcell 0 0 1 3 (by with_unfolding_all rfl) (by with_unfolding_all rfl)
    (by norm_num)
  rw [hg] at hc
  obtain ⟨hcv, hbound⟩ := hc
  exact ⟨by with_unfolding_all rfl, hcv, hbound (by norm_num) (by norm_num)⟩

/-- C3 counterexample: for the raster with red = [[-1]] and NIR = [[1]] the cell
has NIR+red = 0, yet ndvi produces the signed infinity +inf there, not the
not-a-number sentinel: the NaN part of the claim fails for a zero denominator
with a nonzero numerator. -/
theorem C3_counterexample :
    ndvi (oneFileFS "d/f" (testRaster [[-1]] [[1]])) "d" "f" defaultNumErr
      = Except.ok ([[FVal.posInf]], ignoreState) ∧ FVal.posInf ≠ FVal.nan :=
  ⟨by with_unfolding_all rfl, by decide⟩

/-- C3 (amended): at every cell where NIR+red = 0 and NIR-red = 0 (both samples
zero), ndvi produces the not-a-number sentinel; where NIR+red = 0 but NIR-red is
nonzero it produces a signed infinity instead.  In either case no runtime error
is raised - the call still returns a full grid of the bands' shape, so every
other cell is computed. -/
theorem C3_zero_denominator (fs : FS) (subdir fn : String) (st : NumErrState)
    (raster : Raster)
    (hopen : fs (os_path_join subdir fn) = Except.ok raster)
    (hbands : 4 ≤ raster.numBands)
    (hsh : qRowLens (raster.bandData 3) = qRowLens (raster.bandData 4)) :
    ∃ g, ndvi fs subdir fn st = Except.ok (g, ignoreState) ∧
      rowLens g = qRowLens (raster.bandData 3) ∧
      ∀ (i j : Nat) (r n : ℚ), getQ (raster.bandData 3) i j = some r →
        getQ (raster.bandData 4) i j = some n → n + r = 0 →
        getCell g i j = some (if n - r = 0 then FVal.nan
          else if 0 < n - r then FVal.posInf else FVal.negInf) := by
  obtain ⟨g, hok, hlen, hcell⟩ := ndvi_run fs subdir fn st raster hopen hbands hsh
  refine ⟨g, hok, hlen, ?_⟩
  intro i j r n hr hn hz
  have := hcell i j r n hr hn
  unfold ndviCell at this
  rwa [if_pos hz] at this

/-- C3 witness: the amended theorem applied to the spec scenario red = NIR =
[[0, 0]]: both cells are NaN and the run returns a full one-row grid without an
error. -/
theorem C3_zero_denominator_witness :
    getQ [[(0 : ℚ), 0]] 0 1 = some 0 ∧
    getCell [[FVal.nan, FVal.nan]] 0 1 = some (if (0 : ℚ) - 0 = 0 then FVal.nan
      else if 0 < (0 : ℚ) - 0 then FVal.posInf else FVal.negInf) ∧
    rowLens [[FVal.nan, FVal.nan]] = qRowLens [[(0 : ℚ), 0]] := by
  obtain ⟨g, hok, hlen, hcell⟩ := C3_zero_denominator
    (oneFileFS "d/f" (testRaster [[0, 0]] [[0, 0]])) "d" "f" defaultNumErr
    (testRaster [[0, 0]] [[0, 0]])
    (by with_unfolding_all rfl) (by norm_num [testRaster]) (by with_unfolding_all rfl)
  have hg : g = [[FVal.nan, FVal.nan]] := by
    have hconc :
        ndvi (oneFileFS "d/f" (testRaster [[0, 0]] [[0, 0]])) "d" "f" defaultNumErr
          = Except.ok (([[FVal.nan, FVal.nan]] : Grid), ignoreState) := by
      with_unfolding_all rfl
    rw [hconc] at hok
    injection hok with hok1
    injection hok1 with hok2 hok3
    exact hok2.symm
  have hc := hcell 0 1 0 0 (by with_unfolding_all rfl) (by with_unfolding_all rfl)
    (by norm_num)
  rw [hg] at hc
  rw [hg] at hlen
  exact ⟨by with_unfolding_all rfl, hc, hlen⟩

/-- C10: at every cell where NIR+red = 0 but NIR-red is nonzero (e.g. NIR = 1,
red = -1), ndvi produces a signed infinity (positive for a positive numerator,
negative otherwise), not NaN; and a NaN cell can arise only where both the
numerator NIR-red and the denominator NIR+red are zero. -/
theorem C10_signed_infinity (fs : FS) (subdir fn : String) (st : NumErrState)
    (raster : Raster)
    (hopen : fs (os_path_join subdir fn) = Except.ok raster)
    (hbands : 4 ≤ raster.numBands)
    (hsh : qRowLens (raster.bandData 3) = qRowLens (raster.bandData 4)) :
    ∃ g, ndvi fs subdir fn st = Except.ok (g, ignoreState) ∧
      ∀ (i j : Nat) (r n : ℚ), getQ (raster.bandData 3) i j = some r →
        getQ (raster.bandData 4) i j = some n →
        (n + r = 0 → n - r ≠ 0 →
          getCell g i j = some (if 0 < n - r then FVal.posInf else FVal.negInf) ∧
          getCell g i j ≠ some FVal.nan) ∧
        (getCell g i j = some FVal.nan → n + r = 0 ∧ n - r = 0) := by
  obtain ⟨g, hok, _, hcell⟩ := ndvi_run fs subdir fn st raster hopen hbands hsh
  refine ⟨g, hok, ?_⟩
  intro i j r n hr hn
  have hthis := hcell i j r n hr hn
  constructor
  · intro hz hnum
    unfold ndviCell at hthis
    rw [if_pos hz, if_neg hnum] at hthis
    refine ⟨hthis, ?_⟩
    rw [hthis]
    by_cases h0 : 0 < n - r <;> simp [h0]
  · intro hnan
    rw [hthis] at hnan
    unfold ndviCell at hnan
    by_cases hz : n + r = 0
    · rw [if_pos hz] at hnan
      by_cases hnum : n - r = 0
      · exact ⟨hz, hnum⟩
      · rw [if_neg hnum] at hnan
        by_cases h0 : 0 < n - r <;> simp [h0] at hnan
    · rw [if_neg hz] at hnan
      simp at hnan

/-- C10 witness: the theorem applied to red = [[-1]], NIR = [[1]]: the single
cell has numerator 2 and denominator 0, and ndvi there is +inf, not NaN. -/
theorem C10_signed_infinity_witness :
    getCell [[FVal.posInf]] 0 0
      = some (if 0 < (1 : ℚ) - (-1) then FVal.posInf else FVal.negInf) ∧
    getCell [[FVal.posInf]] 0 0 ≠ some FVal.nan := by
  obtain ⟨g, hok, hcell⟩ := C10_signed_infinity
    (oneFileFS "d/f" (testRaster [[-1]] [[1]])) "d" "f" defaultNumErr
    (testRaster [[-1]] [[1]])
    (by with_unfolding_all rfl) (by norm_num [testRaster]) (by with_unfolding_all rfl)
  have hg : g = [[FVal.posInf]] := by
    have hconc :
        ndvi (oneFileFS "d/f" (testRaster [[-1]] [[1]])) "d" "f" defaultNumErr
          = Except.ok (([[FVal.posInf]] : Grid), ignoreState) := by
      with_unfolding_all rfl
    rw [hconc] at hok
    injection hok with hok1
    injection hok1 with hok2 hok3
    exact hok2.symm
  have hc := (hcell 0 0 (-1) 1 (by with_unfolding_all rfl) (by with_unfolding_all rfl)).1
    (by norm_num) (by norm_num)
  rw [hg] at hc
  exact hc

/-- C2: when the two underlying ndvi calls succeed with equal-shaped grids,
ndvi_change(dir, before, after) is exactly the elementwise difference
ndvi(dir, after) - ndvi(dir, before); and when the after grid is uniformly
strictly higher than the before grid, every cell of the delta grid is strictly
positive. -/
theorem C2_ndvi_change_after_minus_before (fs : FS) (subdir fnB fnA : String)
    (st : NumErrState) (gA gB : Grid) (sA sB : NumErrState)
    (hA : ndvi fs subdir fnA st = Except.ok (gA, sA))
    (hB : ndvi fs subdir fnB st = Except.ok (gB, sB))
    (hsh : rowLens gA = rowLens gB) :
    ∃ delta, ndvi_change fs subdir fnB fnA st = Except.ok (delta, sB) ∧
      ewise (fsub sB) gA gB = Except.ok delta ∧
      (allLt gB gA = true → allPos delta = true) := by
  obtain ⟨delta, h1, h2, _⟩ := ndvi_change_run hA hB hsh
  exact ⟨delta, h1, h2, fun hlt => ewise_sub_pos sB h2 hlt⟩

/-- C2 witness: before raster red [[1]], NIR [[3]] (index 1/2) and after raster
red [[1]], NIR [[9]] (index 4/5): the delta grid is [[3/10]], elementwise
after-minus-before, and strictly positive since 4/5 is uniformly above 1/2. -/
theorem C2_ndvi_change_after_minus_before_witness :
    allLt [[FVal.fin (1/2)]] [[FVal.fin (4/5)]] = true ∧
    ndvi_change
      (twoFileFS "d/before" (testRaster [[1]] [[3]]) "d/after" (testRaster [[1]] [[9]]))
      "d" "before" "after" defaultNumErr
      = Except.ok ([[FVal.fin (3/10)]], ignoreState) ∧
    allPos [[FVal.fin (3/10)]] = true := by
  obtain ⟨delta, h1, h2, h3⟩ := C2_ndvi_change_after_minus_before
    (twoFileFS "d/before" (testRaster [[1]] [[3]]) "d/after" (testRaster [[1]] [[9]]))
    "d" "before" "after" defaultNumErr
    [[FVal.fin (4/5)]] [[FVal.fin (1/2)]] ignoreState ignoreState
    (by with_unfolding_all rfl) (by with_unfolding_all rfl) rfl
  have hlt : allLt [[FVal.fin (1/2)]] [[FVal.fin (4/5)]] = true := by
    with_unfolding_all decide
  have hdelta : delta = [[FVal.fin (3/10)]] := by
    have hconc : ewise (fsub ignoreState) [[FVal.fin (4/5)]] [[FVal.fin (1/2)]]
        = Except.ok ([[FVal.fin (3/10)]] : Grid) := by with_unfolding_all rfl
    rw [hconc] at h2
    injection h2 with h2e
    exact h2e.symm
  rw [hdelta] at h1 h3
  exact ⟨hlt, h1, h3 hlt⟩

/-- C5: for every readable raster with at least four bands and equal-shaped
red/NIR bands, the grid ndvi returns has the same row/column dimensions as both
band grids; and for any pair of successful equal-shaped ndvi runs, the grid
ndvi_change returns has those same dimensions. -/
theorem C5_shape_invariant (fs : FS) (subdir fn fnB fnA : String) (st : NumErrState)
    (raster : Raster)
    (hopen : fs (os_path_join subdir fn) = Except.ok raster)
    (hbands : 4 ≤ raster.numBands)
    (hsh : qRowLens (raster.bandData 3) = qRowLens (raster.bandData 4)) :
    (∃ g, ndvi fs subdir fn st = Except.ok (g, ignoreState) ∧
      rowLens g = qRowLens (raster.bandData 3) ∧
      rowLens g = qRowLens (raster.bandData 4)) ∧
    (∀ (gA gB : Grid) (sA sB : NumErrState),
      ndvi fs subdir fnA st = Except.ok (gA, sA) →
      ndvi fs subdir fnB st = Except.ok (gB, sB) → rowLens gA = rowLens gB →
      ∃ delta, ndvi_change fs subdir fnB fnA st = Except.ok (delta, sB) ∧
        rowLens delta = rowLens gA ∧ rowLens delta = rowLens gB) := by
  constructor
  · obtain ⟨g, hok, hlen, _⟩ := ndvi_run fs subdir fn st raster hopen hbands hsh
    exact ⟨g, hok, hlen, by rw [hlen, hsh]⟩
  · intro gA gB sA sB hA hB hshAB
    obtain ⟨delta, h1, _, hdlen⟩ := ndvi_change_run hA hB hshAB
    exact ⟨delta, h1, hdlen, by rw [hdlen, hshAB]⟩

/-- C5 witness: the shape theorem applied to the 2x2 spec scenario raster and to
the concrete before/after pair used for C2. -/
theorem C5_shape_invariant_witness :
    (4 ≤ (testRaster [[1, 2], [3, 4]] [[3, 4], [5, 6]]).numBands) ∧
    ((∃ g, ndvi (oneFileFS "d/f" (testRaster [[1, 2], [3, 4]] [[3, 4], [5, 6]])) "d" "f"
        defaultNumErr = Except.ok (g, ignoreState) ∧
      rowLens g = qRowLens ((testRaster [[1, 2], [3, 4]] [[3, 4], [5, 6]]).bandData 3) ∧
      rowLens g = qRowLens ((testRaster [[1, 2], [3, 4]] [[3, 4], [5, 6]]).bandData 4)) ∧
    (∀ (gA gB : Grid) (sA sB : NumErrState),
      ndvi (oneFileFS "d/f" (testRaster [[1, 2], [3, 4]] [[3, 4], [5, 6]])) "d" "f"
        defaultNumErr = Except.ok (gA, sA) →
      ndvi (oneFileFS "d/f" (testRaster [[1, 2], [3, 4]] [[3, 4], [5, 6]])) "d" "f"
        defaultNumErr = Except.ok (gB, sB) → rowLens gA = rowLens gB →
      ∃ delta, ndvi_change (oneFileFS "d/f" (testRaster [[1, 2], [3, 4]] [[3, 4], [5, 6]]))
          "d" "f" "f" defaultNumErr = Except.ok (delta, sB) ∧
        rowLens delta = rowLens gA ∧ rowLens delta = rowLens gB)) :=
  ⟨by norm_num [testRaster],
   C5_shape_invariant (oneFileFS "d/f" (testRaster [[1, 2], [3, 4]] [[3, 4], [5, 6]]))
     "d" "f" "f" "f" defaultNumErr (testRaster [[1, 2], [3, 4]] [[3, 4], [5, 6]])
     (by with_unfolding_all rfl) (by norm_num [testRaster]) (by with_unfolding_all rfl)⟩

/-- C4 counterexample: running ndvi from the policy (raise, raise) succeeds,
but the process-wide policy it leaves behind is (ignore, ignore), not the
(raise, raise) it started from: the restoration part of the claim fails - the
np.seterr mutation persists after ndvi returns. -/
theorem C4_counterexample :
    ndvi (oneFileFS "d/f" (testRaster [[1]] [[3]])) "d" "f"
        ⟨ErrMode.raiseErr, ErrMode.raiseErr⟩
      = Except.ok ([[FVal.fin (1/2)]], ignoreState) ∧
    ignoreState ≠ ⟨ErrMode.raiseErr, ErrMode.raiseErr⟩ :=
  ⟨by with_unfolding_all rfl, by decide⟩

/-- C4 (amended): every run of ndvi establishes the divide/invalid suppression
before computing its elementwise ratio - its result is the same whatever policy
was in force when it was called, because np.seterr runs first - but the
suppression is not scoped to the computation: the process-wide policy after any
successful ndvi call is left at (ignore, ignore) rather than restored to what it
was before the call. -/
theorem C4_seterr_not_restored (fs : FS) (subdir fn : String) (st st' : NumErrState) :
    ndvi fs subdir fn st = ndvi fs subdir fn st' ∧
    (∀ (g : Grid) (s : NumErrState), ndvi fs subdir fn st = Except.ok (g, s) →
      s = ignoreState) :=
  ⟨ndvi_state_irrel fs subdir fn st st', fun _ _ h => ndvi_ok_state h⟩

/-- C4 witness: the amended theorem applied to a run started from the strict
(raise, raise) policy: the result matches a run started from the NumPy default
policy, and the policy the run leaves behind is (ignore, ignore). -/
theorem C4_seterr_not_restored_witness :
    ndvi (oneFileFS "d/f" (testRaster [[1]] [[3]])) "d" "f"
        ⟨ErrMode.raiseErr, ErrMode.raiseErr⟩
      = ndvi (oneFileFS "d/f" (testRaster [[1]] [[3]])) "d" "f" defaultNumErr ∧
    ignoreState = ignoreState :=
  ⟨(C4_seterr_not_restored (oneFileFS "d/f" (testRaster [[1]] [[3]])) "d" "f"
      ⟨ErrMode.raiseErr, ErrMode.raiseErr⟩ defaultNumErr).1,
   (C4_seterr_not_restored (oneFileFS "d/f" (testRaster [[1]] [[3]])) "d" "f"
      ⟨ErrMode.raiseErr, ErrMode.raiseErr⟩ defaultNumErr).2
     [[FVal.fin (1/2)]] ignoreState (by with_unfolding_all rfl)⟩

/-- C6: for every directory and filename that resolve to a readable raster with
at least 4 bands (whose bands, as in any real raster, share one shape),
load_data returns the ordered pair (band 3 as red, band 4 as NIR), both
converted to float 2D grids, and the two grids have identical shape. -/
theorem C6_load_data_bands (fs : FS) (subdir fn : String) (raster : Raster)
    (hopen : fs (os_path_join subdir fn) = Except.ok raster)
    (hbands : 4 ≤ raster.numBands)
    (hsh : qRowLens (raster.bandData 3) = qRowLens (raster.bandData 4)) :
    load_data fs subdir fn
      = Except.ok (astype_f4 (raster.bandData 3), astype_f4 (raster.bandData 4)) ∧
    rowLens (astype_f4 (raster.bandData 3)) = rowLens (astype_f4 (raster.bandData 4)) :=
  ⟨load_data_ok fs subdir fn raster hopen hbands,
   by rw [rowLens_astype, rowLens_astype, hsh]⟩

/-- C6 witness: load_data on the 2x2 spec raster returns the red and NIR float
grids in that order, with equal shapes. -/
theorem C6_load_data_bands_witness :
    load_data (oneFileFS "d/f" (testRaster [[1, 2], [3, 4]] [[3, 4], [5, 6]])) "d" "f"
      = Except.ok (astype_f4 ((testRaster [[1, 2], [3, 4]] [[3, 4], [5, 6]]).bandData 3),
          astype_f4 ((testRaster [[1, 2], [3, 4]] [[3, 4], [5, 6]]).bandData 4)) ∧
    rowLens (astype_f4 ((testRaster [[1, 2], [3, 4]] [[3, 4], [5, 6]]).bandData 3))
      = rowLens (astype_f4 ((testRaster [[1, 2], [3, 4]] [[3, 4], [5, 6]]).bandData 4)) :=
  C6_load_data_bands (oneFileFS "d/f" (testRaster [[1, 2], [3, 4]] [[3, 4], [5, 6]]))
    "d" "f" (testRaster [[1, 2], [3, 4]] [[3, 4], [5, 6]])
    (by with_unfolding_all rfl) (by norm_num [testRaster]) (by with_unfolding_all rfl)

/-- C7: whenever the Band Loader fails, ndvi fails with the same error value,
unchanged; and ndvi_change fails with the error of whichever of its two Index
Calculator invocations fails (the after-file call runs first): no error other
than the per-element numeric-undefined case is caught or transformed. -/
theorem C7_error_propagation (fs : FS) (subdir fn fnB fnA : String) (st : NumErrState) :
    (∀ e, load_data fs subdir fn = Except.error e →
      ndvi fs subdir fn st = Except.error e) ∧
    (∀ e, ndvi fs subdir fnA st = Except.error e →
      ndvi_change fs subdir fnB fnA st = Except.error e) ∧
    (∀ (gA : Grid) (sA : NumErrState) e,
      ndvi fs subdir fnA st = Except.ok (gA, sA) →
      ndvi fs subdir fnB st = Except.error e →
      ndvi_change fs subdir fnB fnA st = Except.error e) := by
  refine ⟨?_, ?_, ?_⟩
  · intro e h
    simp only [ndvi, np_seterr_ignore, h]
  · intro e h
    simp only [ndvi_change, h]
  · intro gA sA e hA hB
    have hB2 : ndvi fs subdir fnB sA = Except.error e := by
      rw [ndvi_state_irrel fs subdir fnB sA st]; exact hB
    simp only [ndvi_change, hA, hB2]

/-- C7 witness: with a filesystem where the before-file is missing, the after
ndvi succeeds and ndvi_change surfaces the file-access error of the before
call unchanged; and on a filesystem with no files at all, ndvi itself surfaces
the Band Loader's file-access error unchanged. -/
theorem C7_error_propagation_witness :
    ndvi (fun _p => Except.error PyError.fileAccess) "d" "f" defaultNumErr
      = Except.error PyError.fileAccess ∧
    ndvi_change (oneFileFS "d/after" (testRaster [[1]] [[3]])) "d" "before" "after"
      defaultNumErr = Except.error PyError.fileAccess :=
  ⟨(C7_error_propagation (fun _p => Except.error PyError.fileAccess) "d" "f" "f" "f"
      defaultNumErr).1 PyError.fileAccess (by with_unfolding_all rfl),
   (C7_error_propagation (oneFileFS "d/after" (testRaster [[1]] [[3]])) "d" "before"
      "before" "after" defaultNumErr).2.2 [[FVal.fin (1/2)]] ignoreState
      PyError.fileAccess (by with_unfolding_all rfl) (by with_unfolding_all rfl)⟩

/-- C8 counterexample: plt_raster does return a value - the empty tuple, from
its final statement return() - rather than returning no value (None): calling
code observes () where the claim says nothing is returned. -/
theorem C8_counterexample :
    (plt_raster [[FVal.fin 1]]).2 = PyVal.emptyTuple ∧ PyVal.emptyTuple ≠ PyVal.none :=
  ⟨rfl, by decide⟩

/-- C8 (amended): for every grid, plt_raster returns the empty tuple (the value
of its explicit return() statement, not None), and its display side effects are
exactly rendering the grid with the reversed terrain colour map followed by
adding a colour-scale legend. -/
theorem C8_plt_raster_effects (band_array : Grid) :
    plt_raster band_array
      = ([PlotEffect.imshow band_array "terrain_r", PlotEffect.colorbar],
         PyVal.emptyTuple) := rfl

/-- C9: line 80 of raster_analysis.py, the first statement of plt_raster's body,
is the IPython magic percent-matplotlib-inline: its first character is the
percent sign, which cannot begin any statement of the plain Python grammar, so
the module fails to parse (SyntaxError on import) outside IPython - contradicting
the module docstring, which says the file can be imported as a module. -/
theorem C9_magic_line_not_plain_python :
    pltRasterMagicLine.data.head? = some (Char.ofNat 37) ∧
    pyLineStartOK pltRasterMagicLine = false := by
  constructor
  · with_unfolding_all rfl
  · with_unfolding_all rfl

end RasterAnalysis
